import Mathlib

/-!
Shallow embedding of the Invoice Reconciliation & Fraud-Risk Assessment Engine
of `backend/app/main.py` (`get_bill_result`, lines 59-212) and
`backend/app/validation.py` (`validate_gstin`, lines 80-169).

Modelling conventions:
* Python floats are modelled as rationals (`ℚ`); `round(x, n)` is modelled as
  round-half-to-even at `n` decimal places (`roundTo`), matching Python's
  decimal-level behaviour.
* JSON-like Python values (the parsed external-registry payload and the dict
  returned by `validate_gstin`) are modelled by the inductive `PyVal`, with
  Python truthiness (`pyTruthy`) and `dict.get` (`PyVal.get`).
* Numeric invoice fields are taken after the NumericNormalizer (`_to_number`,
  main.py lines 60-69) and the alternate-field-name fallbacks, i.e. as
  `Option ℚ`: no claim under verification turns on string-to-number parsing,
  only on presence/absence and the numeric value.
* The external registry call (validation.py lines 98-115) is an injected
  collaborator; its possible outcomes are enumerated by `ExtOutcome`
  (not configured / HTTP 200 with JSON body / HTTP 200 with unparseable body /
  non-200 status / transport error or timeout).
* `difflib.SequenceMatcher(...).ratio()` is an external library call; it is
  modelled as an injected similarity function `sim : String → String → ℚ`.
-/

namespace Bills

set_option maxRecDepth 10000

/-- JSON-like Python value (the shapes that flow through the engine). -/
inductive PyVal where
  | none
  | bool (b : Bool)
  | num (q : ℚ)
  | str (s : String)
  | list (xs : List PyVal)
  | dict (kvs : List (String × PyVal))

/-- Python `dict.get(k)`: first matching key of the association list,
`None` (here: `Option.none`) when the receiver is not a dict. -/
def PyVal.get : PyVal → String → Option PyVal
  | .dict kvs, k => (kvs.find? (fun kv => kv.fst == k)).map (fun kv => kv.snd)
  | _, _ => Option.none

/-- Python truthiness of a JSON-like value. -/
def pyTruthy : PyVal → Bool
  | .none => false
  | .bool b => b
  | .num q => decide (q ≠ 0)
  | .str s => !s.data.isEmpty
  | .list xs => !xs.isEmpty
  | .dict kvs => !kvs.isEmpty

/-- Truthiness of `dict.get`'s result (`None` for a missing key is falsy). -/
def pyTruthyO : Option PyVal → Bool
  | Option.none => false
  | Option.some v => pyTruthy v

/-- Python `a or b` on values coming out of `dict.get`. -/
def pyOrO (a b : Option PyVal) : Option PyVal := if pyTruthyO a then a else b

/-- Truthiness of an optional Python string (`None` and `""` are falsy). -/
def pyTruthyStr : Option String → Bool
  | Option.none => false
  | Option.some s => !s.data.isEmpty

/-- Python `s or d` for an optional string `s` (main.py line 130: `gstin or ""`). -/
def pyOrStr (o : Option String) (d : String) : String :=
  match o with
  | Option.some s => if s.data.isEmpty then d else s
  | Option.none => d

/-- Python `str.strip()` (whitespace trim at both ends). -/
def pyStrip (s : String) : String :=
  ⟨((s.data.dropWhile Char.isWhitespace).reverse.dropWhile Char.isWhitespace).reverse⟩

/-- Python `str.upper()`. -/
def pyUpper (s : String) : String := ⟨s.data.map Char.toUpper⟩

/-- Python `str.lower()`. -/
def pyLower (s : String) : String := ⟨s.data.map Char.toLower⟩

/-- Python `str(v)` (approximate for containers; every claim under
verification only ever applies it to strings). -/
def pyStr : PyVal → String
  | .none => "None"
  | .bool b => cond b "True" "False"
  | .num q => toString q
  | .str s => s
  | .list _ => "[...]"
  | .dict _ => "\x7b...\x7d"

/-- Round-half-to-even to the nearest integer (Python 3 `round`). -/
def rhe (y : ℚ) : ℤ :=
  let f : ℤ := ⌊y⌋
  let r : ℚ := y - f
  if r < 1/2 then f
  else if 1/2 < r then f + 1
  else if f % 2 = 0 then f else f + 1

/-- Python `round(x, p)` for `p` decimal places. -/
def roundTo (p : ℕ) (x : ℚ) : ℚ := (rhe (10 ^ p * x) : ℚ) / 10 ^ p

/-- Python `round(x, 2)` — all monetary rounding in the engine. -/
def round2 (x : ℚ) : ℚ := roundTo 2 x

/-- Python `round(x, 3)` — the similarity ratio rounding (validation.py line 167). -/
def round3 (x : ℚ) : ℚ := roundTo 3 x

/-! ## Line-item reconciliation (main.py lines 71-114) -/

/-- An extracted line item, numeric fields after `_to_number` and the
alternate-key fallbacks (main.py lines 75-77). -/
structure LineItem where
  item : Option String := Option.none
  qty : Option ℚ := Option.none
  rate : Option ℚ := Option.none
  total : Option ℚ := Option.none

/-- One entry of the `line_checks` output (main.py lines 90-99). -/
structure LineCheck where
  line_index : ℕ
  item : Option String
  qty : Option ℚ
  rate : Option ℚ
  total : Option ℚ
  computed_total : Option ℚ
  diff : Option ℚ
  ok : Option Bool
deriving DecidableEq

/-- The value `computed = round(qty * rate, 2)` when both operands are present
(main.py lines 82-83). -/
def computedTotal (li : LineItem) : Option ℚ :=
  match li.qty, li.rate with
  | Option.some q, Option.some r => Option.some (round2 (q * r))
  | _, _ => Option.none

/-- The per-line check of main.py lines 79-99. -/
def line_check (idx : ℕ) (li : LineItem) : LineCheck :=
  let computed := computedTotal li
  let diff : Option ℚ :=
    match computed, li.total with
    | Option.some c, Option.some t => Option.some (round2 (c - t))
    | _, _ => Option.none
  let ok : Option Bool := diff.map (fun d => decide (|d| ≤ 1))
  ⟨idx, li.item, li.qty, li.rate, li.total, computed, diff, ok⟩

/-- The `line_checks` list (main.py lines 71-99, enumeration order kept). -/
def line_checks (items : List LineItem) : List LineCheck :=
  items.enum.map (fun p => line_check p.1 p.2)

/-- One line's contribution to the running sum (main.py line 88:
`total if total is not None else (computed or 0.0)`; a computed value of
`0.0` is falsy in Python but `0.0 or 0.0` is `0.0`, so the value agrees). -/
def line_sum_contrib (li : LineItem) : ℚ :=
  match li.total with
  | Option.some t => t
  | Option.none =>
      match computedTotal li with
      | Option.some c => c
      | Option.none => 0

/-- The raw running sum `sum_of_line_totals` (main.py lines 73-88). -/
def sum_of_line_totals (items : List LineItem) : ℚ :=
  items.foldl (fun acc li => acc + line_sum_contrib li) 0

/-- The engine's input: extracted fields after the alternate-key fallbacks
and numeric normalization (main.py lines 72, 101, 117-124). -/
structure Invoice where
  line_items : List LineItem := []
  total_amount : Option ℚ := Option.none
  gstin : Option String := Option.none
  vendor_name : Option String := Option.none

/-- The value `sum_diff = round(sum_of_line_totals - invoice_total, 2)` when the
invoice total is present (main.py lines 102-105). -/
def invoice_sum_diff (inv : Invoice) : Option ℚ :=
  match inv.total_amount with
  | Option.some t => Option.some (round2 (sum_of_line_totals inv.line_items - t))
  | Option.none => Option.none

/-- The flag `sum_ok = abs(sum_diff) <= 1.0` when `sum_diff` exists (main.py line 106). -/
def invoice_sum_ok (inv : Invoice) : Option Bool :=
  (invoice_sum_diff inv).map (fun d => decide (|d| ≤ 1))

/-! ## GSTIN validation (validation.py lines 80-169) -/

/-- The possible terminal outcomes of the optional external-registry call
(validation.py lines 96-115): not configured (no `gstin_endpoint`), a 200
response with a JSON body, a 200 response whose body `resp.json()` cannot
parse, a non-200 status, or a transport error / timeout raised by the
HTTP client. -/
inductive ExtOutcome where
  | notConfigured
  | ok (payload : PyVal)
  | okRaw (text : String)
  | httpError (code : ℕ)
  | exn (msg : String)

/-- Effect of the external-call block (validation.py lines 98-115): the
attached `external_check` payload, if any, and the diagnostic notes it
appends. -/
def externalResult : ExtOutcome → Option PyVal × List String
  | .notConfigured => (Option.none, [])
  | .ok p => (Option.some p, [])
  | .okRaw t => (Option.some (PyVal.dict [("raw", PyVal.str t)]), [])
  | .httpError c => (Option.none, [s!"external_service_error:{c}"])
  | .exn m => (Option.none, [s!"external_check_error:{m}"])

/-- The regex of validation.py line 124:
`^(\d\x7b2\x7d)([A-Z]\x7b5\x7d\d\x7b4\x7d[A-Z])([A-Z0-9])Z([A-Z0-9])$`. -/
def gstinPatternOk (s : String) : Bool :=
  match s.data with
  | [s1, s2, p1, p2, p3, p4, p5, d1, d2, d3, d4, pl, e, z, c] =>
      s1.isDigit && s2.isDigit &&
      p1.isUpper && p2.isUpper && p3.isUpper && p4.isUpper && p5.isUpper &&
      d1.isDigit && d2.isDigit && d3.isDigit && d4.isDigit &&
      pl.isUpper && (e.isUpper || e.isDigit) && z == 'Z' && (c.isUpper || c.isDigit)
  | _ => false

/-- The parsed state code `int(m.group("state"))` — the leading two digits (validation.py line 131). -/
def stateCode (s : String) : ℕ :=
  match s.data with
  | c1 :: c2 :: _ => 10 * (c1.toNat - 48) + (c2.toNat - 48)
  | _ => 0

/-- Candidate business-name keys, in priority order (validation.py line 146). -/
def nameKeys : List String :=
  ["business_name", "name", "legal_name", "company", "firm", "trade_name"]

/-- Nesting keys tried when no top-level name is found (validation.py line 153). -/
def nestKeys : List String := ["data", "result", "payload"]

/-- The inner key loop of validation.py lines 146-150 / 155-159: first
truthy value under a candidate key, stringified. -/
def findNameIn (e : PyVal) : Option String :=
  nameKeys.findSome? (fun k =>
    match e.get k with
    | Option.some v => if pyTruthy v then Option.some (pyStr v) else Option.none
    | Option.none => Option.none)

/-- The full name search of validation.py lines 144-161: top-level keys
first, then one level under `data` / `result` / `payload` sub-dicts. -/
def found_name (e : PyVal) : Option String :=
  match findNameIn e with
  | Option.some n => Option.some n
  | Option.none =>
      nestKeys.findSome? (fun p =>
        match e.get p with
        | Option.some (PyVal.dict kvs) => findNameIn (PyVal.dict kvs)
        | _ => Option.none)

/-- The `business_name_match` record construction (validation.py lines
141-167): requires a truthy vendor name and a truthy external payload; the
name search runs only on dict payloads; `match = ratio >= 0.7` with the
ratio rounded to 3 decimals in the record. -/
def bn_record (vn : Option String) (ext : Option PyVal)
    (sim : String → String → ℚ) : Option PyVal :=
  if pyTruthyStr vn && pyTruthyO ext then
    match vn, ext with
    | Option.some v, Option.some e =>
        let fn : Option String :=
          match e with
          | PyVal.dict _ => found_name e
          | _ => Option.none
        match fn with
        | Option.some n =>
            let ratio := sim (pyLower v) (pyLower n)
            Option.some (PyVal.dict
              [("found_name", PyVal.str n),
               ("similarity", PyVal.num (round3 ratio)),
               ("match", PyVal.bool (decide (ratio ≥ 0.7)))])
        | Option.none => Option.none
    | _, _ => Option.none
  else Option.none

/-- Assembles the result dict of `validate_gstin` (keys as inserted by
validation.py lines 91, 109-111, 130-138, 167). -/
def mkResult (gst : String) (vf sOk : Bool) (notes : List String)
    (ext : Option PyVal) (bn : Option PyVal) : PyVal :=
  PyVal.dict
    ([("gstin", PyVal.str gst), ("valid_format", PyVal.bool vf),
      ("state_code_ok", PyVal.bool sOk),
      ("notes", PyVal.list (notes.map PyVal.str))]
     ++ (match ext with
         | Option.some e => [("external_check", e)]
         | Option.none => [])
     ++ (match bn with
         | Option.some b => [("business_name_match", b)]
         | Option.none => []))

/-- The function `validate_gstin` (validation.py lines 80-169). The external call runs
first (lines 98-115), then the length check returns early (lines 117-119),
then the pattern check returns early (lines 124-128), then state code,
the `checksum_not_validated` note and the optional name match. -/
def validate_gstin (gstin : String) (vendor_name : Option String)
    (oc : ExtOutcome) (sim : String → String → ℚ) : PyVal :=
  let gst := pyUpper (pyStrip gstin)
  let er := externalResult oc
  let ext := er.1
  let extNotes := er.2
  if gst.length ≠ 15 then
    mkResult gst false false (extNotes ++ ["GSTIN must be 15 characters long"])
      ext Option.none
  else if gstinPatternOk gst then
    let state := stateCode gst
    let sOk := decide (1 ≤ state ∧ state ≤ 37)
    let stateNotes :=
      if sOk then [] else [s!"State code {state} out of expected range 01-37"]
    mkResult gst true sOk
      (extNotes ++ stateNotes ++ ["checksum_not_validated"])
      ext (bn_record vendor_name ext sim)
  else
    mkResult gst false false
      (extNotes ++
        ["GSTIN does not match expected pattern (state+PAN+entity+Z+checksum)"])
      ext Option.none

/-! ## Risk aggregation (main.py lines 137-202) -/

/-- The reasons the aggregator can append, carrying the data interpolated
into the corresponding Python strings (see `Reason.text`). -/
inductive Reason where
  | total_mismatch (sum_diff : ℚ)
  | line_mismatch (count : ℕ)
  | gstin_format_invalid
  | gstin_not_in_registry
  | name_mismatch
  | name_match
  | no_gstin
deriving DecidableEq

/-- The exact reason strings of main.py lines 149, 156, 171, 177, 181,
185, 190. -/
def Reason.text : Reason → String
  | .total_mismatch d => s!"Invoice total differs from sum of lines by {d}"
  | .line_mismatch n => s!"{n} line item(s) with mismatched totals"
  | .gstin_format_invalid => "GSTIN format appears invalid"
  | .gstin_not_in_registry => "GSTIN not found in external registry"
  | .name_mismatch => "Vendor name does not match registry/business name for GSTIN"
  | .name_match => "Vendor name matches registry for GSTIN"
  | .no_gstin => "No GSTIN provided"

/-- Signal 1, invoice-total mismatch (main.py lines 142-149): fires when
`sum_ok is False and sum_diff is not None`; the divisor branch tests
Python truthiness (`invoice_total and invoice_total != 0`). -/
def after_total (invoice_total sum_diff : Option ℚ) (sum_ok : Option Bool) :
    ℚ × List Reason :=
  match sum_ok, sum_diff with
  | Option.some false, Option.some d =>
      let add : ℚ :=
        match invoice_total with
        | Option.some t => if t ≠ 0 then 0.5 * min (|d| / |t|) 1 else 0.5
        | Option.none => 0.5
      (add, [Reason.total_mismatch d])
  | _, _ => (0, [])

/-- The count `line_issues` (main.py line 152): lines whose `ok` is explicitly false. -/
def line_issues (lcs : List LineCheck) : ℕ :=
  lcs.countP (fun l => l.ok == Option.some false)

/-- Signal 2, per-line mismatches (main.py lines 152-156). -/
def after_lines (lcs : List LineCheck) (st : ℚ × List Reason) : ℚ × List Reason :=
  let n := line_issues lcs
  if n ≠ 0 then (st.1 + min 0.25 (0.05 * (n : ℚ)), st.2 ++ [Reason.line_mismatch n])
  else st

/-- The registry-absence test of main.py line 175:
`external.get("status") in ("not_found", "not_exists") or not
external.get("business_name")` — only the two top-level keys are read. -/
def registry_absent (e : PyVal) : Bool :=
  (match e.get "status" with
   | Option.some (PyVal.str s) => s == "not_found" || s == "not_exists"
   | _ => false) || !(pyTruthyO (e.get "business_name"))

/-- The Python `or` chain of main.py line 167:
`gstin_validation.get("format_ok") or gstin_validation.get("valid_format")
or gstin_validation.get("is_valid")`. -/
def format_ok_chain (d : PyVal) : Option PyVal :=
  pyOrO (pyOrO (d.get "format_ok") (d.get "valid_format")) (d.get "is_valid")

/-- Signal 3, GSTIN format (main.py lines 169-171): `if format_ok is False`
is an identity test against the `False` singleton, so only a value equal to
the boolean `false` takes the branch. -/
def format_step (d : PyVal) (st : ℚ × List Reason) : ℚ × List Reason :=
  match format_ok_chain d with
  | Option.some (PyVal.bool false) =>
      (st.1 + 0.15, st.2 ++ [Reason.gstin_format_invalid])
  | _ => st

/-- Signal 4, registry absence (main.py lines 173-177): fires on a truthy
dict payload whose `status` is `"not_found"`/`"not_exists"` or whose
top-level `business_name` is missing or falsy. -/
def registry_step (d : PyVal) (st : ℚ × List Reason) : ℚ × List Reason :=
  match d.get "external_check" with
  | Option.some (PyVal.dict ekvs) =>
      if !ekvs.isEmpty then
        if registry_absent (PyVal.dict ekvs) then
          (st.1 + 0.35, st.2 ++ [Reason.gstin_not_in_registry])
        else st
      else st
  | _ => st

/-- Signal 5, vendor-name match (main.py lines 179-185): `bn_match is
False` / `bn_match is True` are identity tests against the boolean
singletons, so only a literal boolean stored under `business_name_match`
can take either branch. -/
def name_step (d : PyVal) (st : ℚ × List Reason) : ℚ × List Reason :=
  match d.get "business_name_match" with
  | Option.some (PyVal.bool false) =>
      (st.1 + 0.30, st.2 ++ [Reason.name_mismatch])
  | Option.some (PyVal.bool true) =>
      (max 0 (st.1 - 0.05), st.2 ++ [Reason.name_match])
  | _ => st

/-- Signals 3-6 (main.py lines 159-190): signals 3-5 run in order on a
truthy dict validation result; the `else` arm (lines 186-190) fires when
`gstin_validation` is falsy. -/
def after_gstin (gv : Option PyVal) (gstin : Option String)
    (st : ℚ × List Reason) : ℚ × List Reason :=
  if pyTruthyO gv then
    match gv with
    | Option.some (PyVal.dict kvs) =>
        name_step (PyVal.dict kvs)
          (registry_step (PyVal.dict kvs) (format_step (PyVal.dict kvs) st))
    | _ => st
  else
    if !(pyTruthyStr gstin) then (st.1 + 0.10, st.2 ++ [Reason.no_gstin]) else st

/-- The staged score/reason accumulation of main.py lines 138-190. -/
def risk (lcs : List LineCheck) (invoice_total sum_diff : Option ℚ)
    (sum_ok : Option Bool) (gv : Option PyVal) (gstin : Option String) :
    ℚ × List Reason :=
  after_gstin gv gstin (after_lines lcs (after_total invoice_total sum_diff sum_ok))

/-- The clamp of main.py lines 193-196. -/
def clamp01 (s : ℚ) : ℚ := if s < 0 then 0 else if 1 < s then 1 else s

/-- The `gstin_validation` wiring in `get_bill_result` (main.py lines 126-132):
validation is attempted only when the GSTIN string or the vendor name is
truthy; the callee receives `gstin or ""`. -/
def gstin_validation (inv : Invoice) (oc : ExtOutcome)
    (sim : String → String → ℚ) : Option PyVal :=
  if pyTruthyStr inv.gstin || pyTruthyStr inv.vendor_name then
    Option.some (validate_gstin (pyOrStr inv.gstin "") inv.vendor_name oc sim)
  else Option.none

/-- The result assembled by `get_bill_result` (main.py lines 108-114,
135, 197-212). -/
structure BillResult where
  lines : List LineCheck
  sum_of_line_totals : ℚ
  invoice_total : Option ℚ
  sum_diff : Option ℚ
  sum_ok : Option Bool
  gstin_validation : Option PyVal
  fraud_score : ℚ
  reasons : List Reason
  fraud_explanation : String

/-- The whole assessment of main.py lines 59-212 (file I/O and the upload
endpoint are outside the engine). -/
def get_bill_result (inv : Invoice) (oc : ExtOutcome)
    (sim : String → String → ℚ) : BillResult :=
  let lcs := line_checks inv.line_items
  let s := sum_of_line_totals inv.line_items
  let sd := invoice_sum_diff inv
  let so := invoice_sum_ok inv
  let gv := gstin_validation inv oc sim
  let rr := risk lcs inv.total_amount sd so gv inv.gstin
  { lines := lcs
    sum_of_line_totals := round2 s
    invoice_total := inv.total_amount
    sum_diff := sd
    sum_ok := so
    gstin_validation := gv
    fraud_score := round2 (clamp01 rr.1)
    reasons := rr.2
    fraud_explanation :=
      if rr.2.isEmpty then
        "Low risk - no significant arithmetic or GSTIN issues detected"
      else String.intercalate "; " (rr.2.map Reason.text) }

/-- Exact-equality similarity used to instantiate the injected
`difflib`-style collaborator at concrete inputs. -/
def simEq (a b : String) : ℚ := if a == b then 1 else 0

/-! ## Rounding and clamping lemmas -/

theorem rhe_lb (y : ℚ) : ⌊y⌋ ≤ rhe y := by
  unfold rhe
  dsimp only
  split_ifs <;> omega

theorem rhe_ub (y : ℚ) : rhe y ≤ ⌊y⌋ + 1 := by
  unfold rhe
  dsimp only
  split_ifs <;> omega

theorem rhe_nonneg {y : ℚ} (h : 0 ≤ y) : 0 ≤ rhe y :=
  le_trans (Int.floor_nonneg.mpr h) (rhe_lb y)

theorem rhe_le_hundred {y : ℚ} (h : y ≤ 100) : rhe y ≤ 100 := by
  have hf : ⌊y⌋ ≤ 100 := by
    have h1 : (⌊y⌋ : ℚ) ≤ y := Int.floor_le y
    have h2 : (⌊y⌋ : ℚ) ≤ 100 := le_trans h1 h
    exact_mod_cast h2
  have hfl : (⌊y⌋ : ℚ) ≤ y := Int.floor_le y
  unfold rhe
  dsimp only
  split_ifs with h1 h2 h3
  · exact hf
  · have hq : (⌊y⌋ : ℚ) < 100 := by linarith
    have : ⌊y⌋ < 100 := by exact_mod_cast hq
    omega
  · exact hf
  · have hr : y - (⌊y⌋ : ℚ) = 1/2 := le_antisymm (not_lt.mp h2) (not_lt.mp h1)
    have hq : (⌊y⌋ : ℚ) < 100 := by linarith
    have : ⌊y⌋ < 100 := by exact_mod_cast hq
    omega

theorem round2_nonneg {x : ℚ} (h : 0 ≤ x) : 0 ≤ round2 x := by
  unfold round2 roundTo
  have h1 : (0 : ℤ) ≤ rhe (10 ^ 2 * x) := rhe_nonneg (by positivity)
  have h2 : (0 : ℚ) ≤ (rhe (10 ^ 2 * x) : ℚ) := by exact_mod_cast h1
  exact div_nonneg h2 (by norm_num)

theorem round2_le_one {x : ℚ} (h : x ≤ 1) : round2 x ≤ 1 := by
  unfold round2 roundTo
  rw [div_le_one (by norm_num)]
  have h1 : rhe (10 ^ 2 * x) ≤ 100 := rhe_le_hundred (by nlinarith)
  have h2 : ((rhe (10 ^ 2 * x) : ℚ)) ≤ 100 := by exact_mod_cast h1
  norm_num at h2 ⊢
  linarith

theorem clamp01_nonneg (s : ℚ) : 0 ≤ clamp01 s := by
  unfold clamp01
  split_ifs <;> linarith

theorem clamp01_le_one (s : ℚ) : clamp01 s ≤ 1 := by
  unfold clamp01
  split_ifs <;> linarith

theorem round2_is_centi (x : ℚ) : ∃ n : ℤ, round2 x = (n : ℚ) / 100 := by
  refine ⟨rhe (10 ^ 2 * x), ?_⟩
  unfold round2 roundTo
  norm_num

/-- C5: for every combination of inputs (arbitrary reconciliation and
GSTIN outcomes fed to the aggregator, and every full assessment), the
final fraud score lies in [0.0, 1.0] and is an exact multiple of 1/100,
i.e. a 2-decimal value, regardless of the intermediate accumulation. -/
theorem claim5_score_bounded :
    (∀ (lcs : List LineCheck) (it sd : Option ℚ) (so : Option Bool)
        (gv : Option PyVal) (g : Option String),
        0 ≤ round2 (clamp01 (risk lcs it sd so gv g).1) ∧
          round2 (clamp01 (risk lcs it sd so gv g).1) ≤ 1 ∧
          ∃ n : ℤ, round2 (clamp01 (risk lcs it sd so gv g).1) = (n : ℚ) / 100) ∧
    (∀ (inv : Invoice) (oc : ExtOutcome) (sim : String → String → ℚ),
        0 ≤ (get_bill_result inv oc sim).fraud_score ∧
          (get_bill_result inv oc sim).fraud_score ≤ 1 ∧
          ∃ n : ℤ, (get_bill_result inv oc sim).fraud_score = (n : ℚ) / 100) := by
  constructor
  · intro lcs it sd so gv g
    exact ⟨round2_nonneg (clamp01_nonneg _), round2_le_one (clamp01_le_one _),
      round2_is_centi _⟩
  · intro inv oc sim
    show 0 ≤ round2 (clamp01 _) ∧ round2 (clamp01 _) ≤ 1 ∧ _
    exact ⟨round2_nonneg (clamp01_nonneg _), round2_le_one (clamp01_le_one _),
      round2_is_centi _⟩

/-! ## Shape of the reason list produced by each aggregation step -/

theorem format_step_snd (d : PyVal) (st : ℚ × List Reason) :
    (format_step d st).2 = st.2 ∨
      (format_step d st).2 = st.2 ++ [Reason.gstin_format_invalid] := by
  unfold format_step
  split <;> simp

theorem registry_step_snd (d : PyVal) (st : ℚ × List Reason) :
    (registry_step d st).2 = st.2 ∨
      (registry_step d st).2 = st.2 ++ [Reason.gstin_not_in_registry] := by
  unfold registry_step
  split
  · split_ifs <;> simp
  · simp

theorem name_step_snd (d : PyVal) (st : ℚ × List Reason) :
    (name_step d st).2 = st.2 ∨ (name_step d st).2 = st.2 ++ [Reason.name_mismatch] ∨
      (name_step d st).2 = st.2 ++ [Reason.name_match] := by
  unfold name_step
  split <;> simp

theorem after_lines_snd (lcs : List LineCheck) (st : ℚ × List Reason) :
    (after_lines lcs st).2 = st.2 ∨
      (after_lines lcs st).2 = st.2 ++ [Reason.line_mismatch (line_issues lcs)] := by
  unfold after_lines
  dsimp only
  split_ifs <;> simp

theorem after_total_snd (it sd : Option ℚ) (so : Option Bool) :
    (after_total it sd so).2 = [] ∨
      ∃ d, sd = Option.some d ∧ so = Option.some false ∧
        (after_total it sd so).2 = [Reason.total_mismatch d] := by
  rcases so with _ | b
  · left; rfl
  · cases b
    · rcases sd with _ | d
      · left; rfl
      · right; exact ⟨d, rfl, rfl, rfl⟩
    · left; rfl

theorem format_step_mem_inv {x : Reason} {d : PyVal} {st : ℚ × List Reason}
    (h : x ∈ (format_step d st).2) : x ∈ st.2 ∨ x = Reason.gstin_format_invalid := by
  rcases format_step_snd d st with h' | h' <;> rw [h'] at h
  · exact Or.inl h
  · rcases List.mem_append.mp h with h | h
    · exact Or.inl h
    · simp at h; exact Or.inr h

theorem registry_step_mem_inv {x : Reason} {d : PyVal} {st : ℚ × List Reason}
    (h : x ∈ (registry_step d st).2) : x ∈ st.2 ∨ x = Reason.gstin_not_in_registry := by
  rcases registry_step_snd d st with h' | h' <;> rw [h'] at h
  · exact Or.inl h
  · rcases List.mem_append.mp h with h | h
    · exact Or.inl h
    · simp at h; exact Or.inr h

theorem name_step_mem_inv {x : Reason} {d : PyVal} {st : ℚ × List Reason}
    (h : x ∈ (name_step d st).2) :
    x ∈ st.2 ∨ x = Reason.name_mismatch ∨ x = Reason.name_match := by
  rcases name_step_snd d st with h' | h' | h' <;> rw [h'] at h
  · exact Or.inl h
  all_goals
    rcases List.mem_append.mp h with h | h
    · exact Or.inl h
    · simp at h; simp [h]

theorem name_step_mem {x : Reason} (d : PyVal) {st : ℚ × List Reason}
    (h : x ∈ st.2) : x ∈ (name_step d st).2 := by
  rcases name_step_snd d st with h' | h' | h' <;> rw [h']
  · exact h
  all_goals exact List.mem_append_left _ h

theorem st01_shape (lcs : List LineCheck) (it sd : Option ℚ) (so : Option Bool) :
    ∀ x ∈ (after_lines lcs (after_total it sd so)).2,
      (∃ d, x = Reason.total_mismatch d) ∨ ∃ n, x = Reason.line_mismatch n := by
  intro x hx
  rcases after_lines_snd lcs (after_total it sd so) with h | h <;> rw [h] at hx
  · rcases after_total_snd it sd so with h0 | ⟨d, _, _, h0⟩ <;> rw [h0] at hx
    · simp at hx
    · simp at hx; exact Or.inl ⟨d, hx⟩
  · rcases List.mem_append.mp hx with hx | hx
    · rcases after_total_snd it sd so with h0 | ⟨d, _, _, h0⟩ <;> rw [h0] at hx
      · simp at hx
      · simp at hx; exact Or.inl ⟨d, hx⟩
    · simp at hx; exact Or.inr ⟨_, hx⟩

theorem after_gstin_mem_truthy {gv : Option PyVal} {g : Option String}
    {st : ℚ × List Reason} {x : Reason} (hgv : pyTruthyO gv = true)
    (hx : x ∈ (after_gstin gv g st).2) :
    x ∈ st.2 ∨ x = Reason.gstin_format_invalid ∨ x = Reason.gstin_not_in_registry ∨
      x = Reason.name_mismatch ∨ x = Reason.name_match := by
  unfold after_gstin at hx
  rw [if_pos hgv] at hx
  rcases gv with _ | v
  · exact Or.inl hx
  · cases v with
    | dict kvs =>
        rcases name_step_mem_inv hx with hx | hx | hx
        · rcases registry_step_mem_inv hx with hx | hx
          · rcases format_step_mem_inv hx with hx | hx
            · exact Or.inl hx
            · simp [hx]
          · simp [hx]
        · simp [hx]
        · simp [hx]
    | none => exact Or.inl hx
    | bool b => exact Or.inl hx
    | num q => exact Or.inl hx
    | str s => exact Or.inl hx
    | list xs => exact Or.inl hx

theorem after_gstin_snd_falsy {gv : Option PyVal} (g : Option String)
    (st : ℚ × List Reason) (hgv : pyTruthyO gv = false) :
    (after_gstin gv g st).2 =
      st.2 ++ (if pyTruthyStr g then [] else [Reason.no_gstin]) := by
  unfold after_gstin
  rw [hgv]
  cases hg : pyTruthyStr g <;> simp [hg]

theorem st01_no_gstin (lcs : List LineCheck) (it sd : Option ℚ) (so : Option Bool) :
    Reason.no_gstin ∉ (after_lines lcs (after_total it sd so)).2 := by
  intro hx
  rcases st01_shape lcs it sd so _ hx with ⟨d, hd⟩ | ⟨n, hn⟩
  · simp at hd
  · simp at hn

theorem risk_mem_no_gstin_iff (lcs : List LineCheck) (it sd : Option ℚ)
    (so : Option Bool) (gv : Option PyVal) (g : Option String) :
    Reason.no_gstin ∈ (risk lcs it sd so gv g).2 ↔
      (pyTruthyO gv = false ∧ pyTruthyStr g = false) := by
  have hst1 := st01_no_gstin lcs it sd so
  unfold risk
  cases hgv : pyTruthyO gv with
  | true =>
      constructor
      · intro hx
        rcases after_gstin_mem_truthy hgv hx with h | h | h | h | h
        · exact absurd h hst1
        all_goals simp at h
      · rintro ⟨h1, _⟩
        simp [hgv] at h1
  | false =>
      rw [after_gstin_snd_falsy g _ hgv]
      cases hg : pyTruthyStr g <;> simp [hg, List.mem_append, hst1]

theorem risk_no_gstin_excl (lcs : List LineCheck) (it sd : Option ℚ)
    (so : Option Bool) (gv : Option PyVal) (g : Option String)
    (h : Reason.no_gstin ∈ (risk lcs it sd so gv g).2) :
    Reason.gstin_format_invalid ∉ (risk lcs it sd so gv g).2 ∧
      Reason.gstin_not_in_registry ∉ (risk lcs it sd so gv g).2 ∧
      Reason.name_mismatch ∉ (risk lcs it sd so gv g).2 ∧
      Reason.name_match ∉ (risk lcs it sd so gv g).2 := by
  have hgv : pyTruthyO gv = false := ((risk_mem_no_gstin_iff lcs it sd so gv g).mp h).1
  have hshape : ∀ x ∈ (risk lcs it sd so gv g).2,
      (∃ d, x = Reason.total_mismatch d) ∨ (∃ n, x = Reason.line_mismatch n) ∨
        x = Reason.no_gstin := by
    intro x hx
    unfold risk at hx
    rw [after_gstin_snd_falsy g _ hgv] at hx
    rcases List.mem_append.mp hx with hx | hx
    · rcases st01_shape lcs it sd so _ hx with h' | h'
      · exact Or.inl h'
      · exact Or.inr (Or.inl h')
    · cases hgs : pyTruthyStr g <;> rw [hgs] at hx <;> simp at hx
      exact Or.inr (Or.inr hx)
  refine ⟨fun hx => ?_, fun hx => ?_, fun hx => ?_, fun hx => ?_⟩ <;>
    rcases hshape _ hx with ⟨d, hd⟩ | ⟨n, hn⟩ | h' <;> simp_all

/-- Projection: the reasons of a full assessment are those of the staged
aggregator. -/
theorem gbr_reasons (inv : Invoice) (oc : ExtOutcome) (sim : String → String → ℚ) :
    (get_bill_result inv oc sim).reasons =
      (risk (line_checks inv.line_items) inv.total_amount (invoice_sum_diff inv)
        (invoice_sum_ok inv) (gstin_validation inv oc sim) inv.gstin).2 := rfl

/-- The function `validate_gstin` always returns a non-empty (hence truthy) dict. -/
theorem validate_gstin_truthy (g : String) (v : Option String) (oc : ExtOutcome)
    (sim : String → String → ℚ) : pyTruthy (validate_gstin g v oc sim) = true := by
  unfold validate_gstin
  dsimp only
  split_ifs <;> simp [mkResult, pyTruthy]

/-- The wired-in validation result is falsy exactly when neither a GSTIN
string nor a vendor name was truthy (main.py lines 126-132). -/
theorem gstin_validation_falsy_iff (inv : Invoice) (oc : ExtOutcome)
    (sim : String → String → ℚ) :
    pyTruthyO (gstin_validation inv oc sim) = false ↔
      (pyTruthyStr inv.gstin = false ∧ pyTruthyStr inv.vendor_name = false) := by
  unfold gstin_validation
  cases hg : pyTruthyStr inv.gstin <;> cases hv : pyTruthyStr inv.vendor_name <;>
    simp [hg, hv, pyTruthyO, validate_gstin_truthy]

/-- C8: the "No GSTIN provided" signal fires exactly when neither a GSTIN
string nor a vendor name was present (so no GSTIN validation was
attempted), and it is mutually exclusive with every GSTIN-derived signal:
whenever it is in the reasons list, none of the format / registry / name
reasons are. -/
theorem claim8_no_gstin_exclusive (inv : Invoice) (oc : ExtOutcome)
    (sim : String → String → ℚ) :
    (Reason.no_gstin ∈ (get_bill_result inv oc sim).reasons ↔
      (pyTruthyStr inv.gstin = false ∧ pyTruthyStr inv.vendor_name = false)) ∧
    (Reason.no_gstin ∈ (get_bill_result inv oc sim).reasons →
      Reason.gstin_format_invalid ∉ (get_bill_result inv oc sim).reasons ∧
      Reason.gstin_not_in_registry ∉ (get_bill_result inv oc sim).reasons ∧
      Reason.name_mismatch ∉ (get_bill_result inv oc sim).reasons ∧
      Reason.name_match ∉ (get_bill_result inv oc sim).reasons) := by
  rw [gbr_reasons]
  constructor
  · rw [risk_mem_no_gstin_iff]
    have h := gstin_validation_falsy_iff inv oc sim
    constructor
    · rintro ⟨h1, h2⟩
      exact h.mp h1
    · rintro ⟨h1, h2⟩
      exact ⟨h.mpr ⟨h1, h2⟩, h1⟩
  · exact risk_no_gstin_excl _ _ _ _ _ _

/-- C8 witness: an invoice with no GSTIN and no vendor name produces the
"No GSTIN provided" reason, and none of the GSTIN-derived reasons. -/
theorem claim8_witness :
    Reason.gstin_format_invalid ∉ (get_bill_result {} .notConfigured simEq).reasons ∧
      Reason.gstin_not_in_registry ∉ (get_bill_result {} .notConfigured simEq).reasons ∧
      Reason.name_mismatch ∉ (get_bill_result {} .notConfigured simEq).reasons ∧
      Reason.name_match ∉ (get_bill_result {} .notConfigured simEq).reasons :=
  (claim8_no_gstin_exclusive {} .notConfigured simEq).2 (by with_unfolding_all decide)

theorem format_step_mem {x : Reason} (d : PyVal) {st : ℚ × List Reason}
    (h : x ∈ st.2) : x ∈ (format_step d st).2 := by
  rcases format_step_snd d st with h' | h' <;> rw [h']
  · exact h
  · exact List.mem_append_left _ h

theorem registry_step_mem {x : Reason} (d : PyVal) {st : ℚ × List Reason}
    (h : x ∈ st.2) : x ∈ (registry_step d st).2 := by
  rcases registry_step_snd d st with h' | h' <;> rw [h']
  · exact h
  · exact List.mem_append_left _ h

theorem after_lines_mem {x : Reason} (lcs : List LineCheck) {st : ℚ × List Reason}
    (h : x ∈ st.2) : x ∈ (after_lines lcs st).2 := by
  rcases after_lines_snd lcs st with h' | h' <;> rw [h']
  · exact h
  · exact List.mem_append_left _ h

theorem after_lines_mem_inv {x : Reason} {lcs : List LineCheck} {st : ℚ × List Reason}
    (h : x ∈ (after_lines lcs st).2) :
    x ∈ st.2 ∨ x = Reason.line_mismatch (line_issues lcs) := by
  rcases after_lines_snd lcs st with h' | h' <;> rw [h'] at h
  · exact Or.inl h
  · rcases List.mem_append.mp h with h | h
    · exact Or.inl h
    · simp at h; exact Or.inr h

theorem after_gstin_mem {x : Reason} (gv : Option PyVal) (g : Option String)
    {st : ℚ × List Reason} (h : x ∈ st.2) : x ∈ (after_gstin gv g st).2 := by
  cases hgv : pyTruthyO gv with
  | false =>
      rw [after_gstin_snd_falsy g st hgv]
      exact List.mem_append_left _ h
  | true =>
      unfold after_gstin
      rw [if_pos hgv]
      rcases gv with _ | v
      · exact h
      · cases v with
        | dict kvs => exact name_step_mem _ (registry_step_mem _ (format_step_mem _ h))
        | none => exact h
        | bool b => exact h
        | num q => exact h
        | str s => exact h
        | list xs => exact h

theorem after_gstin_mem_inv {gv : Option PyVal} {g : Option String}
    {st : ℚ × List Reason} {x : Reason} (hx : x ∈ (after_gstin gv g st).2) :
    x ∈ st.2 ∨ x = Reason.gstin_format_invalid ∨ x = Reason.gstin_not_in_registry ∨
      x = Reason.name_mismatch ∨ x = Reason.name_match ∨ x = Reason.no_gstin := by
  cases hgv : pyTruthyO gv with
  | true =>
      rcases after_gstin_mem_truthy hgv hx with h | h | h | h | h
      · exact Or.inl h
      all_goals simp [h]
  | false =>
      rw [after_gstin_snd_falsy g st hgv] at hx
      rcases List.mem_append.mp hx with h | h
      · exact Or.inl h
      · cases hg : pyTruthyStr g <;> rw [hg] at h <;> simp at h
        simp [h]

/-- Full characterization of the total-mismatch reason: it is present
exactly when `sum_ok` is explicitly false and `sum_diff` carries that
value (main.py lines 142-149). -/
theorem risk_mem_total_mismatch (lcs : List LineCheck) (it sd : Option ℚ)
    (so : Option Bool) (gv : Option PyVal) (g : Option String) (d : ℚ) :
    Reason.total_mismatch d ∈ (risk lcs it sd so gv g).2 ↔
      (so = Option.some false ∧ sd = Option.some d) := by
  constructor
  · intro hx
    unfold risk at hx
    rcases after_gstin_mem_inv hx with hx | hx | hx | hx | hx | hx
    · rcases after_lines_mem_inv hx with hx | hx
      · rcases after_total_snd it sd so with h0 | ⟨d', hsd, hso, h0⟩ <;> rw [h0] at hx
        · simp at hx
        · simp at hx
          exact ⟨hso, hx ▸ hsd⟩
      all_goals simp at hx
    all_goals simp at hx
  · rintro ⟨hso, hsd⟩
    subst hso; subst hsd
    unfold risk
    apply after_gstin_mem
    apply after_lines_mem
    show Reason.total_mismatch d ∈ (after_total it (Option.some d) (Option.some false)).2
    unfold after_total
    simp

theorem gbr_sum_diff (inv : Invoice) (oc : ExtOutcome) (sim : String → String → ℚ) :
    (get_bill_result inv oc sim).sum_diff = invoice_sum_diff inv := rfl

theorem gbr_sum_ok (inv : Invoice) (oc : ExtOutcome) (sim : String → String → ℚ) :
    (get_bill_result inv oc sim).sum_ok = invoice_sum_ok inv := rfl

/-- The total-mismatch contribution as the spec words it (§4.5 step 1):
`0.5 * min(|sum_diff| / |invoice_total|, 1.0)` when the invoice total is
present and nonzero, else a flat `0.5`. -/
def spec_total_mismatch_add (invoice_total : Option ℚ) (d : ℚ) : ℚ :=
  match invoice_total with
  | Option.some t => if t ≠ 0 then 0.5 * min (|d| / |t|) 1 else 0.5
  | Option.none => 0.5

/-- C6: if the invoice's stated total is absent, `sum_diff` and `sum_ok`
are both absent and no total-mismatch reason is produced; if it is present
and `sum_ok` is false with `sum_diff = d` known, the total-mismatch reason
carrying `d` is produced and the step's contribution equals the spec
formula: `0.5 * min(|d| / |invoice_total|, 1.0)` for a nonzero invoice
total, else a flat `0.5`. -/
theorem claim6_total_mismatch (inv : Invoice) (oc : ExtOutcome)
    (sim : String → String → ℚ) :
    (inv.total_amount = Option.none →
      (get_bill_result inv oc sim).sum_diff = Option.none ∧
      (get_bill_result inv oc sim).sum_ok = Option.none ∧
      ∀ d, Reason.total_mismatch d ∉ (get_bill_result inv oc sim).reasons) ∧
    (∀ t d, inv.total_amount = Option.some t →
      (get_bill_result inv oc sim).sum_diff = Option.some d →
      (get_bill_result inv oc sim).sum_ok = Option.some false →
      Reason.total_mismatch d ∈ (get_bill_result inv oc sim).reasons ∧
      after_total inv.total_amount (invoice_sum_diff inv) (invoice_sum_ok inv) =
        (spec_total_mismatch_add inv.total_amount d, [Reason.total_mismatch d])) := by
  constructor
  · intro h
    have hsd : invoice_sum_diff inv = Option.none := by
      unfold invoice_sum_diff; rw [h]
    have hso : invoice_sum_ok inv = Option.none := by
      unfold invoice_sum_ok; rw [hsd]; rfl
    refine ⟨by rw [gbr_sum_diff, hsd], by rw [gbr_sum_ok, hso], fun d hd => ?_⟩
    rw [gbr_reasons, risk_mem_total_mismatch] at hd
    rw [hso] at hd
    exact Option.noConfusion hd.1
  · intro t d ht hsd hso
    rw [gbr_sum_diff] at hsd
    rw [gbr_sum_ok] at hso
    constructor
    · rw [gbr_reasons, risk_mem_total_mismatch]
      exact ⟨hso, hsd⟩
    · rw [ht, hsd, hso]
      rfl

/-- C6 witness: an invoice with a single 100-total line and stated total
300 yields `sum_diff = -200`, `sum_ok = false`, the total-mismatch reason,
and contribution `0.5 * min(200/300, 1)`; an invoice with no stated total
yields absent `sum_diff`/`sum_ok` and no total-mismatch reason. -/
theorem claim6_witness :
    ((get_bill_result {} .notConfigured simEq).sum_diff = Option.none ∧
      (get_bill_result {} .notConfigured simEq).sum_ok = Option.none ∧
      ∀ d, Reason.total_mismatch d ∉ (get_bill_result {} .notConfigured simEq).reasons) ∧
    (Reason.total_mismatch (-200) ∈
        (get_bill_result
          { line_items := [{ total := Option.some 100 }],
            total_amount := Option.some 300 } .notConfigured simEq).reasons ∧
      after_total (Option.some 300)
          (invoice_sum_diff
            { line_items := [{ total := Option.some 100 }],
              total_amount := Option.some 300 })
          (invoice_sum_ok
            { line_items := [{ total := Option.some 100 }],
              total_amount := Option.some 300 }) =
        (spec_total_mismatch_add (Option.some 300) (-200),
          [Reason.total_mismatch (-200)])) :=
  ⟨(claim6_total_mismatch {} .notConfigured simEq).1 rfl,
    (claim6_total_mismatch
      { line_items := [{ total := Option.some 100 }],
        total_amount := Option.some 300 } .notConfigured simEq).2 300 (-200) rfl
      (by with_unfolding_all decide) (by with_unfolding_all decide)⟩

/-- C7: per-line absence handling and the running sum. If quantity or
rate is absent, `computed_total`, `diff` and `ok` are all absent (never
false); each line contributes its stated total when present, else its
computed total when present, else `0`; the running sum satisfies the
accumulation recurrence and is always a number; an empty line-item
sequence yields sum `0` and an empty check sequence. -/
theorem claim7_line_absence :
    (∀ (idx : ℕ) (li : LineItem), li.qty = Option.none ∨ li.rate = Option.none →
      (line_check idx li).computed_total = Option.none ∧
      (line_check idx li).diff = Option.none ∧
      (line_check idx li).ok = Option.none) ∧
    (∀ (li : LineItem) (t : ℚ), li.total = Option.some t → line_sum_contrib li = t) ∧
    (∀ (li : LineItem) (c : ℚ), li.total = Option.none →
      computedTotal li = Option.some c → line_sum_contrib li = c) ∧
    (∀ li : LineItem, li.total = Option.none → computedTotal li = Option.none →
      line_sum_contrib li = 0) ∧
    (∀ (items : List LineItem) (li : LineItem),
      sum_of_line_totals (items ++ [li]) =
        sum_of_line_totals items + line_sum_contrib li) ∧
    sum_of_line_totals [] = 0 ∧ line_checks ([] : List LineItem) = [] := by
  refine ⟨?_, ?_, ?_, ?_, ?_, rfl, rfl⟩
  · rintro idx ⟨it, q, r, t⟩ (h | h) <;> simp only at h <;> subst h
    · cases r <;> simp [line_check, computedTotal]
    · cases q <;> simp [line_check, computedTotal]
  · rintro ⟨it, q, r, t⟩ u h
    simp only at h
    subst h
    simp [line_sum_contrib]
  · rintro ⟨it, q, r, t⟩ c h hc
    simp only at h
    subst h
    simp [line_sum_contrib, hc]
  · rintro ⟨it, q, r, t⟩ h hc
    simp only at h
    subst h
    simp [line_sum_contrib, hc]
  · intro items li
    unfold sum_of_line_totals
    rw [List.foldl_append]
    simp

/-- A line with absent quantity but present rate and total. -/
def liNoQty : LineItem := { qty := Option.none, rate := Option.some 5, total := Option.some 3 }

/-- A line with only a stated total. -/
def liTotalOnly : LineItem := { total := Option.some 7 }

/-- A line with only quantity and rate (computed total `6`). -/
def liComputedOnly : LineItem := { qty := Option.some 2, rate := Option.some 3 }

/-- C7 witness: a line with absent quantity yields absent
`computed_total`/`diff`/`ok`; contribution is the stated total `7` when
present, else the computed total `6`, else `0`; and the sum recurrence
holds on a concrete two-line list. -/
theorem claim7_witness :
    ((line_check 0 liNoQty).computed_total = Option.none ∧
      (line_check 0 liNoQty).diff = Option.none ∧
      (line_check 0 liNoQty).ok = Option.none) ∧
    line_sum_contrib liTotalOnly = 7 ∧
    line_sum_contrib liComputedOnly = 6 ∧
    line_sum_contrib {} = 0 ∧
    sum_of_line_totals [liTotalOnly, liComputedOnly] =
      sum_of_line_totals [liTotalOnly] + line_sum_contrib liComputedOnly :=
  ⟨claim7_line_absence.1 0 liNoQty (Or.inl rfl),
    claim7_line_absence.2.1 liTotalOnly 7 rfl,
    claim7_line_absence.2.2.1 liComputedOnly 6 rfl (by with_unfolding_all decide),
    claim7_line_absence.2.2.2.1 {} rfl rfl,
    claim7_line_absence.2.2.2.2.1 [liTotalOnly] liComputedOnly⟩

theorem mkResult_get_external (gst : String) (vf sOk : Bool) (notes : List String)
    (ext bn : Option PyVal) :
    (mkResult gst vf sOk notes ext bn).get "external_check" = ext := by
  rcases ext with _ | e <;> rcases bn with _ | b <;> rfl

/-- The attached external payload of a validation result is exactly what
the external call produced, whatever the format checks decided. -/
theorem validate_get_external (g : String) (v : Option String) (oc : ExtOutcome)
    (sim : String → String → ℚ) :
    (validate_gstin g v oc sim).get "external_check" = (externalResult oc).1 := by
  unfold validate_gstin
  dsimp only
  split_ifs <;> rw [mkResult_get_external]

theorem validate_gstin_dict (g : String) (v : Option String) (oc : ExtOutcome)
    (sim : String → String → ℚ) :
    ∃ kvs, validate_gstin g v oc sim = PyVal.dict kvs := by
  unfold validate_gstin
  dsimp only
  split_ifs <;> exact ⟨_, rfl⟩

/-- The external payload used in claim 10: the business name sits under
the alternate key `name`, not under `business_name`. -/
def payAltName : PyVal := PyVal.dict [("name", PyVal.str "acme")]

/-- The invoice used in claim 10's concrete part. -/
def invAltName : Invoice :=
  { gstin := Option.some "29ABCDE1234F2Z5", vendor_name := Option.some "acme" }

/-- C10: the registry-absence signal inspects only the top-level `status`
and `business_name` keys: for every assessment whose external payload is a
non-empty dict satisfying that test (`status` in
`("not_found", "not_exists")` or top-level `business_name` missing/falsy),
the reason "GSTIN not found in external registry" is produced — even when
the payload carries the business name under the alternate key `name`,
which the name-reconciliation step does find and use for a positive name
match (0.35 contribution, reasons exactly that signal, and a
`business_name_match` record with `match=true` on the concrete input). -/
theorem claim10_registry_absence :
    (∀ (inv : Invoice) (sim : String → String → ℚ)
        (ekvs : List (String × PyVal)), ekvs ≠ [] →
        registry_absent (PyVal.dict ekvs) = true →
        (pyTruthyStr inv.gstin = true ∨ pyTruthyStr inv.vendor_name = true) →
        Reason.gstin_not_in_registry ∈
          (get_bill_result inv (ExtOutcome.ok (PyVal.dict ekvs)) sim).reasons) ∧
    ((get_bill_result invAltName (ExtOutcome.ok payAltName) simEq).fraud_score = 0.35 ∧
      (get_bill_result invAltName (ExtOutcome.ok payAltName) simEq).reasons =
        [Reason.gstin_not_in_registry] ∧
      (match (get_bill_result invAltName (ExtOutcome.ok payAltName) simEq).gstin_validation with
        | Option.some d => d.get "business_name_match"
        | Option.none => Option.none) =
        Option.some (PyVal.dict
          [("found_name", PyVal.str "acme"), ("similarity", PyVal.num 1),
            ("match", PyVal.bool true)])) := by
  constructor
  · intro inv sim ekvs hne habs hcond
    have hgv : gstin_validation inv (ExtOutcome.ok (PyVal.dict ekvs)) sim =
        Option.some (validate_gstin (pyOrStr inv.gstin "") inv.vendor_name
          (ExtOutcome.ok (PyVal.dict ekvs)) sim) := by
      unfold gstin_validation
      rcases hcond with h | h <;> simp [h]
    obtain ⟨kvs, hk⟩ := validate_gstin_dict (pyOrStr inv.gstin "") inv.vendor_name
      (ExtOutcome.ok (PyVal.dict ekvs)) sim
    have htr : pyTruthy (PyVal.dict kvs) = true := by
      rw [← hk]
      exact validate_gstin_truthy _ _ _ _
    have hext : (PyVal.dict kvs).get "external_check" =
        Option.some (PyVal.dict ekvs) := by
      rw [← hk]
      exact validate_get_external _ _ _ _
    have hne' : ekvs.isEmpty = false := by
      cases ekvs with
      | nil => exact absurd rfl hne
      | cons a l => rfl
    rw [gbr_reasons]
    unfold risk
    rw [hgv, hk]
    unfold after_gstin
    rw [if_pos (show pyTruthyO (Option.some (PyVal.dict kvs)) = true from htr)]
    apply name_step_mem
    have hreg : (registry_step (PyVal.dict kvs)
        (format_step (PyVal.dict kvs)
          (after_lines (line_checks inv.line_items)
            (after_total inv.total_amount (invoice_sum_diff inv)
              (invoice_sum_ok inv))))).2 =
        (format_step (PyVal.dict kvs)
          (after_lines (line_checks inv.line_items)
            (after_total inv.total_amount (invoice_sum_diff inv)
              (invoice_sum_ok inv)))).2 ++ [Reason.gstin_not_in_registry] := by
      unfold registry_step
      rw [hext]
      simp [hne', habs]
    rw [hreg]
    exact List.mem_append_right _ (by simp)
  · refine ⟨by with_unfolding_all decide, by with_unfolding_all decide, ?_⟩
    with_unfolding_all rfl

/-- C10 witness: a `not_found` status payload on an invoice with a GSTIN
produces the registry-absence reason. -/
theorem claim10_witness :
    Reason.gstin_not_in_registry ∈
      (get_bill_result { gstin := Option.some "29ABCDE1234F2Z5" }
        (ExtOutcome.ok (PyVal.dict [("status", PyVal.str "not_found")])) simEq).reasons :=
  claim10_registry_absence.1 { gstin := Option.some "29ABCDE1234F2Z5" } simEq
    [("status", PyVal.str "not_found")] (by simp) (by rfl) (Or.inl (by rfl))

theorem mkResult_get_valid_format (gst : String) (vf sOk : Bool)
    (notes : List String) (ext bn : Option PyVal) :
    (mkResult gst vf sOk notes ext bn).get "valid_format" =
      Option.some (PyVal.bool vf) := by
  rcases ext with _ | e <;> rcases bn with _ | b <;> rfl

theorem mkResult_get_state_code_ok (gst : String) (vf sOk : Bool)
    (notes : List String) (ext bn : Option PyVal) :
    (mkResult gst vf sOk notes ext bn).get "state_code_ok" =
      Option.some (PyVal.bool sOk) := by
  rcases ext with _ | e <;> rcases bn with _ | b <;> rfl

theorem mkResult_get_notes (gst : String) (vf sOk : Bool)
    (notes : List String) (ext bn : Option PyVal) :
    (mkResult gst vf sOk notes ext bn).get "notes" =
      Option.some (PyVal.list (notes.map PyVal.str)) := by
  rcases ext with _ | e <;> rcases bn with _ | b <;> rfl

theorem mkResult_get_bn (gst : String) (vf sOk : Bool)
    (notes : List String) (ext bn : Option PyVal) :
    (mkResult gst vf sOk notes ext bn).get "business_name_match" = bn := by
  rcases ext with _ | e <;> rcases bn with _ | b <;> rfl

/-! ## Claims 1-4 and 9 -/

/-- The failing input of claim 1: a GSTIN whose format check fails. -/
def invBadFmt : Invoice := { gstin := Option.some "123" }

/-- C1 (code-bug evaluation): on an invoice whose GSTIN validation result
carries `valid_format = false`, the aggregator's `format_ok` chain
(`get("format_ok") or get("valid_format") or get("is_valid")`) collapses
the explicit `False` to `None`, so no 0.15 contribution and no
"GSTIN format appears invalid" reason are produced, contrary to the
claim (and the spec). -/
theorem claim1_format_signal_dead :
    (match (get_bill_result invBadFmt .notConfigured simEq).gstin_validation with
      | Option.some d => d.get "valid_format"
      | Option.none => Option.none) = Option.some (PyVal.bool false) ∧
    (match (get_bill_result invBadFmt .notConfigured simEq).gstin_validation with
      | Option.some d => format_ok_chain d
      | Option.none => Option.none) = Option.none ∧
    Reason.gstin_format_invalid ∉ (get_bill_result invBadFmt .notConfigured simEq).reasons ∧
    (get_bill_result invBadFmt .notConfigured simEq).fraud_score = 0 :=
  ⟨by with_unfolding_all rfl, by with_unfolding_all rfl,
    by with_unfolding_all decide, by with_unfolding_all decide⟩

/-- The external payload of claim 2's failing input: a registered business
name that does not resemble the vendor name. -/
def payOtherName : PyVal := PyVal.dict [("business_name", PyVal.str "unrelated vendor")]

/-- The failing input of claim 2: valid GSTIN, vendor name that does not
match the registry's business name. -/
def invOtherName : Invoice :=
  { gstin := Option.some "29ABCDE1234F2Z5", vendor_name := Option.some "acme" }

/-- C2 (code-bug evaluation): the validation result carries a
`business_name_match` record whose `match` flag is `false`, yet the
aggregator — which compares the whole record with the boolean singletons
(`bn_match is False` / `is True`) — fires neither the +0.30 mismatch
branch nor the -0.05 match branch: no name reason and score 0, contrary
to the claim (and the spec). -/
theorem claim2_name_signal_dead :
    (match (get_bill_result invOtherName (.ok payOtherName) simEq).gstin_validation with
      | Option.some d =>
          (match d.get "business_name_match" with
            | Option.some b => b.get "match"
            | Option.none => Option.none)
      | Option.none => Option.none) = Option.some (PyVal.bool false) ∧
    Reason.name_mismatch ∉ (get_bill_result invOtherName (.ok payOtherName) simEq).reasons ∧
    Reason.name_match ∉ (get_bill_result invOtherName (.ok payOtherName) simEq).reasons ∧
    (get_bill_result invOtherName (.ok payOtherName) simEq).reasons = [] ∧
    (get_bill_result invOtherName (.ok payOtherName) simEq).fraud_score = 0 :=
  ⟨by with_unfolding_all rfl, by with_unfolding_all decide, by with_unfolding_all decide,
    by with_unfolding_all decide, by with_unfolding_all decide⟩

/-- The line item of claim 3: quantity 200, rate 385, stated total 77500. -/
def liQtyRate : LineItem :=
  { qty := Option.some 200, rate := Option.some 385, total := Option.some 77500 }

/-- C3 counterexample: `diff = round(computed - stated, 2)` on
quantity=200, rate=385, stated total=77500 is `-500.0`, not the claimed
`500.0`. -/
theorem claim3_counterexample :
    (line_check 0 liQtyRate).diff = Option.some (-500) ∧
    (line_check 0 liQtyRate).diff ≠ Option.some 500 :=
  ⟨by with_unfolding_all decide, by with_unfolding_all decide⟩

/-- The invoice of claim 3's amended statement: the single mismatched line
with a matching grand total and a valid GSTIN, isolating the line signal. -/
def invQtyRate : Invoice :=
  { line_items := [liQtyRate], total_amount := Option.some 77500,
    gstin := Option.some "29ABCDE1234F2Z5" }

/-- C3 amended: the line yields `diff = -500.0` (signed, computed minus
stated) and `ok = false`; that single failed line is counted once and
contributes `min(0.25, 0.05*1) = 0.05` to the score (the assessment's only
reason is the one-line mismatch and its score is exactly 0.05). -/
theorem claim3_line_diff_amended :
    (line_check 0 liQtyRate).diff = Option.some (-500) ∧
    (line_check 0 liQtyRate).ok = Option.some false ∧
    line_issues (line_checks invQtyRate.line_items) = 1 ∧
    (after_lines (line_checks invQtyRate.line_items) (0, [])).1 =
      min (0.25 : ℚ) (0.05 * ((1 : ℕ) : ℚ)) ∧
    (get_bill_result invQtyRate .notConfigured simEq).reasons =
      [Reason.line_mismatch 1] ∧
    (get_bill_result invQtyRate .notConfigured simEq).fraud_score = 0.05 :=
  ⟨by with_unfolding_all decide, by with_unfolding_all decide,
    by with_unfolding_all decide, by with_unfolding_all decide,
    by with_unfolding_all decide, by with_unfolding_all decide⟩

/-- The external payload of claim 4's counterexample. -/
def payActive : PyVal :=
  PyVal.dict [("status", PyVal.str "active"), ("business_name", PyVal.str "X")]

/-- C4 counterexample: with a configured external check answering 200, a
3-character GSTIN still gets the length note, but the result DOES carry an
external-check payload — the lookup runs before the length check, contrary
to the claim that no external-check payload can be present. -/
theorem claim4_counterexample :
    (validate_gstin "abc" Option.none (.ok payActive) simEq).get "external_check" =
      Option.some payActive ∧
    (validate_gstin "abc" Option.none (.ok payActive) simEq).get "notes" =
      Option.some (PyVal.list [PyVal.str "GSTIN must be 15 characters long"]) :=
  ⟨by with_unfolding_all rfl, by with_unfolding_all rfl⟩

/-- C4 amended: for every GSTIN whose normalized form is not 15 characters
long, validation stops with the note "GSTIN must be 15 characters long"
and performs none of the later checks (format and state flags stay false,
no name-match record) — but the external-registry lookup runs before the
length check, so the result's external-check payload is whatever that
lookup produced. -/
theorem claim4_short_gstin_amended (g : String) (v : Option String)
    (oc : ExtOutcome) (sim : String → String → ℚ)
    (h : (pyUpper (pyStrip g)).length ≠ 15) :
    (validate_gstin g v oc sim).get "valid_format" = Option.some (PyVal.bool false) ∧
    (validate_gstin g v oc sim).get "state_code_ok" = Option.some (PyVal.bool false) ∧
    (validate_gstin g v oc sim).get "business_name_match" = Option.none ∧
    (validate_gstin g v oc sim).get "notes" =
      Option.some (PyVal.list
        (((externalResult oc).2 ++ ["GSTIN must be 15 characters long"]).map PyVal.str)) ∧
    (validate_gstin g v oc sim).get "external_check" = (externalResult oc).1 := by
  unfold validate_gstin
  dsimp only
  rw [if_pos h]
  exact ⟨mkResult_get_valid_format _ _ _ _ _ _, mkResult_get_state_code_ok _ _ _ _ _ _,
    mkResult_get_bn _ _ _ _ _ _, mkResult_get_notes _ _ _ _ _ _,
    mkResult_get_external _ _ _ _ _ _⟩

/-- C4 witness: the amended statement evaluated on the 3-character GSTIN
"abc" with a failing external lookup. -/
theorem claim4_witness :
    (validate_gstin "abc" Option.none (.httpError 7) simEq).get "valid_format" =
      Option.some (PyVal.bool false) ∧
    (validate_gstin "abc" Option.none (.httpError 7) simEq).get "state_code_ok" =
      Option.some (PyVal.bool false) ∧
    (validate_gstin "abc" Option.none (.httpError 7) simEq).get "business_name_match" =
      Option.none ∧
    (validate_gstin "abc" Option.none (.httpError 7) simEq).get "notes" =
      Option.some (PyVal.list
        (((externalResult (.httpError 7)).2 ++
          ["GSTIN must be 15 characters long"]).map PyVal.str)) ∧
    (validate_gstin "abc" Option.none (.httpError 7) simEq).get "external_check" =
      (externalResult (.httpError 7)).1 :=
  claim4_short_gstin_amended "abc" Option.none (.httpError 7) simEq (by decide)

/-- C9 counterexample: a 200 response with an unparseable body is NOT
recorded as a diagnostic note — the notes carry only
`checksum_not_validated` — it is recorded as an external-check payload
`{raw: body}` instead, contrary to the claim that every such failure is
recorded only as a diagnostic note. -/
theorem claim9_counterexample :
    (validate_gstin "29ABCDE1234F2Z5" Option.none (.okRaw "<html>") simEq).get
        "external_check" =
      Option.some (PyVal.dict [("raw", PyVal.str "<html>")]) ∧
    (validate_gstin "29ABCDE1234F2Z5" Option.none (.okRaw "<html>") simEq).get "notes" =
      Option.some (PyVal.list [PyVal.str "checksum_not_validated"]) :=
  ⟨by with_unfolding_all rfl, by with_unfolding_all rfl⟩

/-- Prepends a note to the `notes` entry of a validation-result dict. -/
def addNoteHead (note : String) (v : PyVal) : PyVal :=
  match v with
  | PyVal.dict kvs =>
      PyVal.dict (kvs.map (fun kv =>
        if kv.1 == "notes" then
          (kv.1,
            match kv.2 with
            | PyVal.list xs => PyVal.list (PyVal.str note :: xs)
            | w => w)
        else kv))
  | w => w

/-- C9 amended: `validate_gstin` is total over every external-call
outcome. A non-200 status or a transport error / timeout is recorded as a
diagnostic note (`external_service_error:{code}` /
`external_check_error:{msg}`) prepended to the notes of the
not-configured run, with no external payload and everything else
unchanged; a 200 response with an unparseable body is recorded as an
external-check payload `{raw: body}` with no note; validation proceeds to
a normal result in every case. -/
theorem claim9_external_failure_amended (g : String) (v : Option String)
    (sim : String → String → ℚ) (c : ℕ) (m t : String) :
    (validate_gstin g v (.httpError c) sim =
        addNoteHead s!"external_service_error:{c}"
          (validate_gstin g v .notConfigured sim) ∧
      (validate_gstin g v (.httpError c) sim).get "external_check" = Option.none) ∧
    (validate_gstin g v (.exn m) sim =
        addNoteHead s!"external_check_error:{m}"
          (validate_gstin g v .notConfigured sim) ∧
      (validate_gstin g v (.exn m) sim).get "external_check" = Option.none) ∧
    ((validate_gstin g v (.okRaw t) sim).get "external_check" =
        Option.some (PyVal.dict [("raw", PyVal.str t)]) ∧
      (validate_gstin g v (.okRaw t) sim).get "notes" =
        (validate_gstin g v .notConfigured sim).get "notes" ∧
      (validate_gstin g v (.okRaw t) sim).get "valid_format" =
        (validate_gstin g v .notConfigured sim).get "valid_format") := by
  refine ⟨⟨?_, ?_⟩, ⟨?_, ?_⟩, ?_, ?_, ?_⟩
  · unfold validate_gstin
    simp only [externalResult]
    split_ifs with h1 h2 h3
    · rfl
    · rcases bn_record v Option.none sim with _ | b <;> rfl
    · rcases bn_record v Option.none sim with _ | b <;> rfl
    · rfl
  · rw [validate_get_external]; rfl
  · unfold validate_gstin
    simp only [externalResult]
    split_ifs with h1 h2 h3
    · rfl
    · rcases bn_record v Option.none sim with _ | b <;> rfl
    · rcases bn_record v Option.none sim with _ | b <;> rfl
    · rfl
  · rw [validate_get_external]; rfl
  · rw [validate_get_external]; rfl
  · unfold validate_gstin
    simp only [externalResult]
    split_ifs with h1 h2 h3 <;> rw [mkResult_get_notes, mkResult_get_notes]
  · unfold validate_gstin
    simp only [externalResult]
    split_ifs with h1 h2 h3 <;>
      rw [mkResult_get_valid_format, mkResult_get_valid_format]

end Bills
